import Mathlib

set_option linter.unusedVariables false

/-!
Shallow embedding of the audit-trail backend
(`app/models`, `app/core/security.py`, `app/core/dependencies.py`,
`app/utils/audit_logger.py`, `app/api/{audit,auth,users}.py`).

Database rows are Lean structures, the relational store is a pair of lists,
and each endpoint is a pure function from its request data and the current
store to a result (`Except HTTPError α`) and, for mutating endpoints, an
updated store.  UUIDs are modelled as `Nat`, timestamps as `Int`, JSON maps
as association lists over strings.
-/

namespace AuditTrail

/-- `UserRole` enum from `app/models/user.py`. -/
inductive UserRole
  | USER
  | ADMIN
deriving DecidableEq, Repr

/-- `AuditEventType` enum from `app/models/audit_log.py`. -/
inductive AuditEventType
  | USER_REGISTER
  | USER_LOGIN
  | USER_LOGOUT
  | USER_LOGIN_FAILED
  | TASK_CREATE
  | TASK_UPDATE
  | TASK_DELETE
  | TASK_ASSIGN
deriving DecidableEq, Repr

/-- JSON object values (`changes`, `event_metadata`) modelled as association
lists from field name to a string rendering of the value. -/
abbrev JsonMap := List (String × String)

/-- `User` row from `app/models/user.py` (UUID ids as `Nat`, datetimes as
`Int`). -/
structure User where
  id : Nat
  email : String
  password_hash : String
  full_name : String
  role : UserRole
  is_active : Bool
  created_at : Int
  last_login : Option Int
deriving DecidableEq, Repr

/-- `AuditLog` row from `app/models/audit_log.py`.  The JSON columns are
`changes` and `event_metadata` (the attribute name `metadata` is reserved by
the ORM base class, which is why the column is called `event_metadata`). -/
structure AuditLog where
  id : Nat
  timestamp : Int
  user_id : Nat
  user_email : String
  user_ip : Option String
  user_agent : Option String
  event_type : AuditEventType
  resource_type : Option String
  resource_id : Option Nat
  action : String
  changes : Option JsonMap
  event_metadata : Option JsonMap
  status : String
deriving DecidableEq, Repr

/-- The relational store: the `users` and `audit_logs` tables. -/
structure Database where
  users : List User
  audit_logs : List AuditLog
deriving DecidableEq, Repr

/-- An `HTTPException` carries a status code and a detail message. -/
structure HTTPError where
  status_code : Nat
  detail : String
deriving DecidableEq, Repr

/-- Ambient per-request context: the clock (`datetime.utcnow()`), the id
generator (`uuid.uuid4`), and whether the storage layer will accept the next
audit-row insert (models the transient write failure that
`create_audit_log`'s `try/except` guards against). -/
structure Ctx where
  now : Int
  fresh_id : Nat
  audit_write_ok : Bool
deriving DecidableEq, Repr

/-- Modelled from the spec: the global configuration value object
(`app/core/config.py` is not part of the sources; §9 of the spec describes it
as a configuration object holding the signing secret, the pinned algorithm
and the default token TTL, injected into the Token Service). -/
structure Settings where
  SECRET_KEY : String
  ALGORITHM : String
  ACCESS_TOKEN_EXPIRE_MINUTES : Int
deriving DecidableEq, Repr

/-! ### Token Service (`app/core/security.py`) -/

/-- Modelled from the spec: the HMAC signature primitive of the external
`jose` library (§1 calls HMAC-signed tokens a commodity primitive).  Any
deterministic tag over key, algorithm, claims and expiry is a faithful
abstraction; a token is correctly signed iff its tag equals this value. -/
def mkSignature (secret alg : String) (claims : List (String × String)) (exp : Int) : Nat :=
  (claims.foldl (fun a kv => a + kv.1.length + 3 * kv.2.length)
    (secret.length * 31 + alg.length * 7 + exp.natAbs * 13)) % 65536

/-- The payload-and-signature part of a structurally valid JWT: the header's
algorithm, the claims map, the `exp` claim and the signature tag. -/
structure SignedToken where
  alg : String
  claims : List (String × String)
  exp : Int
  sig : Nat
deriving DecidableEq, Repr

/-- A bearer token as received on the wire: either not parseable as a JWT at
all, or structurally valid with some (possibly wrong) signature. -/
inductive TokenInput
  | malformed (raw : String)
  | signed (t : SignedToken)
deriving DecidableEq, Repr

/-- `create_access_token` (`security.py`): embeds the claims plus an absolute
expiry (default TTL from configuration, override allowed per call) and signs
with the pinned algorithm. -/
def create_access_token (s : Settings) (now : Int) (data : List (String × String))
    (expires_delta : Option Int) : TokenInput :=
  let expire : Int :=
    match expires_delta with
    | some d => now + d
    | none => now + s.ACCESS_TOKEN_EXPIRE_MINUTES * 60
  .signed ⟨s.ALGORITHM, data, expire, mkSignature s.SECRET_KEY s.ALGORITHM data expire⟩

/-- `verify_token` (`security.py`): `jwt.decode` pinned to the configured
algorithm; a malformed token, a token signed under another algorithm, a bad
signature and an expired token each raise inside the `try` and all collapse
to `None`. -/
def verify_token (s : Settings) (now : Int) (token : TokenInput) :
    Option (List (String × String)) :=
  match token with
  | .malformed _ => none
  | .signed t =>
    if t.alg ≠ s.ALGORITHM then none
    else if t.sig ≠ mkSignature s.SECRET_KEY t.alg t.claims t.exp then none
    else if t.exp ≤ now then none
    else some t.claims

/-- `decode_token` (`security.py`): `verify_token` then the `"sub"` claim. -/
def decode_token (s : Settings) (now : Int) (token : TokenInput) : Option String :=
  match verify_token s now token with
  | some payload => payload.lookup "sub"
  | none => none

/-! ### Credential Store (`app/core/security.py`) -/

/-- Modelled from the spec: the bcrypt primitive behind `hash_password`
(§1: bcrypt is a commodity primitive, not redesigned).  The salt is elided;
no claim depends on it. -/
def hash_password (password : String) : String :=
  "$2b$12$" ++ password

/-- `verify_password` (`security.py`): total boolean check against the
stored digest, any internal error counting as a mismatch. -/
def verify_password (plain_password hashed_password : String) : Bool :=
  hashed_password == hash_password plain_password

/-! ### Audit Emitter (`app/utils/audit_logger.py`) -/

/-- The parts of a FastAPI `Request` the audit logger reads. -/
structure RequestInfo where
  x_forwarded_for : Option String
  client_host : String
  user_agent : Option String
deriving DecidableEq, Repr

/-- Origin-address extraction in `create_audit_log`: first entry of the
`X-Forwarded-For` header when present, else the direct connection address. -/
def extract_ip (request : Option RequestInfo) : Option String :=
  match request with
  | none => none
  | some r =>
    match r.x_forwarded_for with
    | some xff => some (((xff.splitOn ",").headD "").trim)
    | none => some r.client_host

/-- `create_audit_log` (`audit_logger.py`).  Builds the row and inserts it;
on storage failure it rolls back and re-raises (modelled as `.error`).

The Python call site passes the keyword argument `metadata=metadata` to the
`AuditLog` constructor, but the mapped column is named `event_metadata`;
`metadata` is the ORM declarative base's reserved attribute, so the keyword
lands on a plain instance attribute and the `event_metadata` column keeps its
default `NULL`.  The row below therefore has `event_metadata := none`
irrespective of the `metadata` argument. -/
def create_audit_log (ctx : Ctx) (db : Database) (user : User)
    (event_type : AuditEventType) (action : String)
    (request : Option RequestInfo)
    (resource_type : Option String) (resource_id : Option Nat)
    (changes : Option JsonMap) (metadata : Option JsonMap)
    (status : String) : Except Unit (AuditLog × Database) :=
  let audit_log : AuditLog :=
    { id := ctx.fresh_id
      timestamp := ctx.now
      user_id := user.id
      user_email := user.email
      user_ip := extract_ip request
      user_agent := (request.bind (·.user_agent))
      event_type := event_type
      resource_type := resource_type
      resource_id := resource_id
      action := action
      changes := changes
      event_metadata := none
      status := status }
  if ctx.audit_write_ok then
    .ok (audit_log, { db with audit_logs := db.audit_logs ++ [audit_log] })
  else
    .error ()

/-- `log_user_login` (`audit_logger.py`). -/
def log_user_login (ctx : Ctx) (db : Database) (user : User) (request : RequestInfo)
    (success : Bool) : Except Unit (AuditLog × Database) :=
  create_audit_log ctx db user
    (if success then .USER_LOGIN else .USER_LOGIN_FAILED)
    (if success then "Successful login" else "Failed login attempt")
    (some request) none none none none
    (if success then "success" else "failure")

/-- `log_user_logout` (`audit_logger.py`). -/
def log_user_logout (ctx : Ctx) (db : Database) (user : User) (request : RequestInfo) :
    Except Unit (AuditLog × Database) :=
  create_audit_log ctx db user .USER_LOGOUT "User logged out" (some request)
    none none none none "success"

/-- `log_user_register` (`audit_logger.py`). -/
def log_user_register (ctx : Ctx) (db : Database) (user : User) (request : RequestInfo) :
    Except Unit (AuditLog × Database) :=
  create_audit_log ctx db user .USER_REGISTER
    ("New user registered: " ++ user.email) (some request)
    (some "user") (some user.id) none none "success"

/-! ### Identity Resolver (`app/core/dependencies.py`)

`security = HTTPBearer()` leaves the scheme's `auto_error` at its default
`True`.  The scheme runs before the dependency body: a request without an
`Authorization` header, or with a non-bearer scheme, is rejected by the
scheme itself with a 403 before `get_current_user` / `get_optional_user`
is ever entered. -/

/-- Python's `str.lower()` applied to the auth scheme, character-wise. -/
def lowerString (s : String) : String := ⟨s.data.map Char.toLower⟩

/-- The parsed `Authorization` header: auth scheme plus the bearer token. -/
structure AuthHeader where
  scheme : String
  credentials : TokenInput
deriving DecidableEq, Repr

/-- FastAPI's `HTTPBearer.__call__` with `auto_error=True` (the repository
instantiates `security = HTTPBearer()` with no argument): missing header
raises 403 "Not authenticated"; a non-bearer scheme raises 403
"Invalid authentication credentials"; otherwise the credentials pass
through.  Modelled from the FastAPI library source, which the repository
code depends on. -/
def http_bearer (authorization : Option AuthHeader) : Except HTTPError TokenInput :=
  match authorization with
  | none => .error ⟨403, "Not authenticated"⟩
  | some h =>
    if lowerString h.scheme ≠ "bearer" then
      .error ⟨403, "Invalid authentication credentials"⟩
    else
      .ok h.credentials

/-- `get_current_user` (`dependencies.py`), composed with the `security`
bearer scheme that feeds it: decode token, look up the subject, require the
account to be active. -/
def get_current_user (s : Settings) (now : Int) (authorization : Option AuthHeader)
    (db : Database) : Except HTTPError User :=
  match http_bearer authorization with
  | .error e => .error e
  | .ok token =>
    match decode_token s now token with
    | none => .error ⟨401, "Invalid authentication credentials"⟩
    | some user_id =>
      match db.users.find? (fun u => toString u.id == user_id) with
      | none => .error ⟨401, "User not found"⟩
      | some user =>
        if ¬ user.is_active then .error ⟨403, "User account is inactive"⟩
        else .ok user

/-- `get_current_admin_user` (`dependencies.py`): `get_current_user` plus an
ADMIN role check. -/
def get_current_admin_user (s : Settings) (now : Int) (authorization : Option AuthHeader)
    (db : Database) : Except HTTPError User :=
  match get_current_user s now authorization db with
  | .error e => .error e
  | .ok user =>
    if user.role ≠ UserRole.ADMIN then .error ⟨403, "Admin access required"⟩
    else .ok user

/-- `get_optional_user` (`dependencies.py`), composed with the same
`security = HTTPBearer()` scheme it depends on.  The function body returns
`none` for an invalid token, an unknown subject or an inactive account, but
the scheme still raises for a missing or non-bearer credential because
`auto_error` was left at `True`. -/
def get_optional_user (s : Settings) (now : Int) (authorization : Option AuthHeader)
    (db : Database) : Except HTTPError (Option User) :=
  match http_bearer authorization with
  | .error e => .error e
  | .ok token =>
    match decode_token s now token with
    | none => .ok none
    | some user_id =>
      match db.users.find? (fun u => toString u.id == user_id) with
      | none => .ok none
      | some user => .ok (if user.is_active then some user else none)

/-! ### Audit Ledger queries (`app/api/audit.py`) -/

/-- Query parameters of `GET /logs` and `GET /my-history` (FastAPI validates
`page ≥ 1` and `1 ≤ page_size ≤ 100` before the handler runs). -/
structure LogsQuery where
  page : Nat
  page_size : Nat
  user_id : Option Nat
  event_type : Option AuditEventType
  start_date : Option Int
  end_date : Option Int
deriving DecidableEq, Repr

/-- Response shape `AuditLogListResponse` (`app/schemas/audit.py`); entries
carried as the stored rows. -/
structure AuditLogListResponse where
  logs : List AuditLog
  total : Nat
  page : Nat
  page_size : Nat
deriving DecidableEq, Repr

/-- One insertion step of `ORDER BY timestamp DESC`: place `x` before the
first element whose timestamp it is not below. -/
def insertDesc (x : AuditLog) : List AuditLog → List AuditLog
  | [] => [x]
  | y :: ys => if y.timestamp ≤ x.timestamp then x :: y :: ys else y :: insertDesc x ys

/-- `ORDER BY timestamp DESC` (`query.order_by(AuditLog.timestamp.desc())`),
modelled as an insertion sort into descending timestamp order. -/
def sortByTimestampDesc (l : List AuditLog) : List AuditLog :=
  l.foldr insertDesc []

/-- The `event_type` / `start_date` / `end_date` filters that `get_audit_logs`
and `get_my_history` both apply, each an independent `query.filter` that
conjoins with the rest. -/
def applyCommonFilters (q : LogsQuery) (l : List AuditLog) : List AuditLog :=
  let l1 := match q.event_type with
    | some e => l.filter (fun r => decide (r.event_type = e))
    | none => l
  let l2 := match q.start_date with
    | some sd => l1.filter (fun r => decide (sd ≤ r.timestamp))
    | none => l1
  match q.end_date with
  | some ed => l2.filter (fun r => decide (r.timestamp ≤ ed))
  | none => l2

/-- `count()` then `order_by(timestamp.desc()).offset((page-1)*page_size)
.limit(page_size).all()` packaged as `AuditLogListResponse`. -/
def paginate (q : LogsQuery) (l : List AuditLog) : AuditLogListResponse :=
  let total := l.length
  let sorted := sortByTimestampDesc l
  { logs := (sorted.drop ((q.page - 1) * q.page_size)).take q.page_size
    total := total
    page := q.page
    page_size := q.page_size }

/-- `get_audit_logs` (`audit.py`, `GET /logs`).  Non-admins are scoped to
their own rows and get a 403 when asking for another user's id; admins may
filter by any user id. -/
def get_audit_logs (q : LogsQuery) (current_user : User) (db : Database) :
    Except HTTPError AuditLogListResponse :=
  if current_user.role ≠ UserRole.ADMIN then
    match q.user_id with
    | some uid =>
      if uid ≠ current_user.id then
        .error ⟨403, "You can only view your own audit logs"⟩
      else
        .ok (paginate q (applyCommonFilters q
          (db.audit_logs.filter (fun r => decide (r.user_id = current_user.id)))))
    | none =>
      .ok (paginate q (applyCommonFilters q
        (db.audit_logs.filter (fun r => decide (r.user_id = current_user.id)))))
  else
    match q.user_id with
    | some uid =>
      .ok (paginate q (applyCommonFilters q
        (db.audit_logs.filter (fun r => decide (r.user_id = uid)))))
    | none =>
      .ok (paginate q (applyCommonFilters q db.audit_logs))

/-- `get_audit_log` (`audit.py`, `GET /logs/{log_id}`): existence check
first, then the non-admin ownership check. -/
def get_audit_log (log_id : Nat) (current_user : User) (db : Database) :
    Except HTTPError AuditLog :=
  match db.audit_logs.find? (fun r => decide (r.id = log_id)) with
  | none => .error ⟨404, "Audit log with ID " ++ toString log_id ++ " not found"⟩
  | some log =>
    if current_user.role ≠ UserRole.ADMIN ∧ log.user_id ≠ current_user.id then
      .error ⟨403, "You can only view your own audit logs"⟩
    else
      .ok log

/-- Response shape `AuditStatsResponse` (`app/schemas/audit.py`). -/
structure AuditStatsResponse where
  total_events : Nat
  events_today : Nat
  failed_logins : Nat
  total_users : Nat
  total_tasks_created : Nat
  total_tasks_updated : Nat
  total_tasks_deleted : Nat
deriving DecidableEq, Repr

/-- `get_audit_stats` (`audit.py`, `GET /stats`): pure read aggregation over
the ledger; `today_start` is today's UTC midnight computed from the clock. -/
def get_audit_stats (today_start : Int) (db : Database) : AuditStatsResponse :=
  { total_events := db.audit_logs.length
    events_today := (db.audit_logs.filter (fun r => decide (today_start ≤ r.timestamp))).length
    failed_logins :=
      (db.audit_logs.filter (fun r => decide (r.event_type = .USER_LOGIN_FAILED))).length
    total_users := ((db.audit_logs.map (·.user_id)).dedup).length
    total_tasks_created :=
      (db.audit_logs.filter (fun r => decide (r.event_type = .TASK_CREATE))).length
    total_tasks_updated :=
      (db.audit_logs.filter (fun r => decide (r.event_type = .TASK_UPDATE))).length
    total_tasks_deleted :=
      (db.audit_logs.filter (fun r => decide (r.event_type = .TASK_DELETE))).length }

/-- `get_my_history` (`audit.py`, `GET /my-history`): same pipeline as
`GET /logs` but always filtered to the requester's own rows; its query has no
`user_id` parameter, so `q.user_id` is ignored. -/
def get_my_history (q : LogsQuery) (current_user : User) (db : Database) :
    AuditLogListResponse :=
  paginate q (applyCommonFilters q
    (db.audit_logs.filter (fun r => decide (r.user_id = current_user.id))))

/-! ### Authentication endpoints (`app/api/auth.py`) -/

/-- `UserCreate` schema: registration payload. -/
structure UserCreate where
  email : String
  password : String
  full_name : String
deriving DecidableEq, Repr

/-- `UserLogin` schema: login payload. -/
structure UserLogin where
  email : String
  password : String
deriving DecidableEq, Repr

/-- `TokenResponse` schema: the issued token plus the user snapshot. -/
structure TokenResponse where
  access_token : TokenInput
  token_type : String
  user : User
deriving DecidableEq, Repr

/-- `register` (`auth.py`, `POST /register`).  The user row's own commit is
modelled as succeeding; the fallible step is the audit insert, governed by
`ctx.audit_write_ok`.  `log_user_register` runs inside the endpoint's big
`try:` with no inner guard, so an audit failure falls through to the
`except:` branch, which rolls back (the user row is already committed and
survives) and raises the generic 500. -/
def register (s : Settings) (ctx : Ctx) (user_data : UserCreate) (request : RequestInfo)
    (db : Database) : Except HTTPError TokenResponse × Database :=
  match db.users.find? (fun u => u.email == user_data.email) with
  | some _ =>
    (.error ⟨409, "Email already registered. Please use a different email or login."⟩, db)
  | none =>
    let new_user : User :=
      { id := ctx.fresh_id
        email := user_data.email
        password_hash := hash_password user_data.password
        full_name := user_data.full_name
        role := .USER
        is_active := true
        created_at := ctx.now
        last_login := none }
    let db1 := { db with users := db.users ++ [new_user] }
    match log_user_register ctx db1 new_user request with
    | .ok (_, db2) =>
      let access_token := create_access_token s ctx.now [("sub", toString new_user.id)] none
      (.ok { access_token := access_token, token_type := "bearer", user := new_user }, db2)
    | .error _ =>
      (.error ⟨500, "Registration failed. Please try again later."⟩, db1)

/-- `login` (`auth.py`, `POST /login`).  The failed-attempt audit write and
the success audit write are each wrapped in their own `try/except` that
swallows the failure; the `last_login` timestamp update likewise continues on
failure (modelled as succeeding). -/
def login (s : Settings) (ctx : Ctx) (credentials : UserLogin) (request : RequestInfo)
    (db : Database) : Except HTTPError TokenResponse × Database :=
  match db.users.find? (fun u => u.email == credentials.email) with
  | none => (.error ⟨401, "Invalid email or password"⟩, db)
  | some user =>
    if ¬ verify_password credentials.password user.password_hash then
      let db1 :=
        match log_user_login ctx db user request false with
        | .ok (_, d) => d
        | .error _ => db
      (.error ⟨401, "Invalid email or password"⟩, db1)
    else if ¬ user.is_active then
      (.error ⟨403, "Account is inactive. Please contact administrator."⟩, db)
    else
      let user1 := { user with last_login := some ctx.now }
      let db1 := { db with users := db.users.map (fun u => if u.id == user.id then user1 else u) }
      let access_token := create_access_token s ctx.now [("sub", toString user.id)] none
      let db2 :=
        match log_user_login ctx db1 user1 request true with
        | .ok (_, d) => d
        | .error _ => db1
      (.ok { access_token := access_token, token_type := "bearer", user := user1 }, db2)

/-- `logout` (`auth.py`, `POST /logout`): the audit write is wrapped in a
`try/except` that swallows any failure; the endpoint always reports
success. -/
def logout (ctx : Ctx) (current_user : User) (request : RequestInfo) (db : Database) :
    Except HTTPError String × Database :=
  let db1 :=
    match log_user_logout ctx db current_user request with
    | .ok (_, d) => d
    | .error _ => db
  (.ok "Successfully logged out", db1)

/-! ### User management endpoints (`app/api/users.py`) -/

/-- Query parameters of `GET /users`. -/
structure UsersQuery where
  page : Nat
  page_size : Nat
  is_active : Option Bool
deriving DecidableEq, Repr

/-- One insertion step of `ORDER BY created_at DESC` over users. -/
def insertCreatedDesc (x : User) : List User → List User
  | [] => [x]
  | y :: ys => if y.created_at ≤ x.created_at then x :: y :: ys else y :: insertCreatedDesc x ys

/-- `get_all_users` (`users.py`, `GET /users`, admin only via the
`get_current_admin_user` dependency, modelled inline). -/
def get_all_users (q : UsersQuery) (current_user : User) (db : Database) :
    Except HTTPError (List User) :=
  if current_user.role ≠ UserRole.ADMIN then .error ⟨403, "Admin access required"⟩
  else
    let l : List User := match q.is_active with
      | some b => db.users.filter (fun u => u.is_active == b)
      | none => db.users
    .ok (((l.foldr insertCreatedDesc []).drop ((q.page - 1) * q.page_size)).take q.page_size)

/-- `get_user_by_id` (`users.py`, `GET /users/{user_id}`, admin only). -/
def get_user_by_id (user_id : Nat) (current_user : User) (db : Database) :
    Except HTTPError User :=
  if current_user.role ≠ UserRole.ADMIN then .error ⟨403, "Admin access required"⟩
  else
    match db.users.find? (fun u => u.id == user_id) with
    | none => .error ⟨404, "User with ID " ++ toString user_id ++ " not found"⟩
    | some user => .ok user

/-- `deactivate_user` (`users.py`, `PATCH /users/{user_id}/deactivate`).
The `get_current_admin_user` dependency is modelled inline: a non-admin
requester is rejected with 403 before the handler body.  The handler itself
rejects an ADMIN-role target with 400 before touching the row. -/
def deactivate_user (user_id : Nat) (current_user : User) (db : Database) :
    Except HTTPError User × Database :=
  if current_user.role ≠ UserRole.ADMIN then (.error ⟨403, "Admin access required"⟩, db)
  else
    match db.users.find? (fun u => u.id == user_id) with
    | none => (.error ⟨404, "User with ID " ++ toString user_id ++ " not found"⟩, db)
    | some user =>
      if user.role = UserRole.ADMIN then
        (.error ⟨400, "Cannot deactivate admin users"⟩, db)
      else
        let user1 := { user with is_active := false }
        (.ok user1, { db with users := db.users.map (fun u => if u.id == user_id then user1 else u) })

/-- `activate_user` (`users.py`, `PATCH /users/{user_id}/activate`). -/
def activate_user (user_id : Nat) (current_user : User) (db : Database) :
    Except HTTPError User × Database :=
  if current_user.role ≠ UserRole.ADMIN then (.error ⟨403, "Admin access required"⟩, db)
  else
    match db.users.find? (fun u => u.id == user_id) with
    | none => (.error ⟨404, "User with ID " ++ toString user_id ++ " not found"⟩, db)
    | some user =>
      let user1 := { user with is_active := true }
      (.ok user1, { db with users := db.users.map (fun u => if u.id == user_id then user1 else u) })

/-! ### The public operation contract

Every operation the application mounts (`app/main.py` includes the auth,
tasks, audit and users routers).  The task handlers are absent from the
sources, but their only interaction with the ledger is emitting events
through `create_audit_log` (via `log_task_create` / `log_task_update` /
`log_task_delete`), which `appendAudit` covers; their task-table writes do
not touch `audit_logs`. -/
inductive Operation
  | listLogs (q : LogsQuery) (cu : User)
  | getLog (log_id : Nat) (cu : User)
  | stats (today_start : Int)
  | myHistory (q : LogsQuery) (cu : User)
  | registerOp (data : UserCreate) (req : RequestInfo)
  | loginOp (creds : UserLogin) (req : RequestInfo)
  | logoutOp (cu : User) (req : RequestInfo)
  | listUsers (q : UsersQuery) (cu : User)
  | getUser (uid : Nat) (cu : User)
  | deactivateOp (uid : Nat) (cu : User)
  | activateOp (uid : Nat) (cu : User)
  | appendAudit (cu : User) (event_type : AuditEventType) (action : String)
      (req : Option RequestInfo) (resource_type : Option String) (resource_id : Option Nat)
      (changes : Option JsonMap) (md : Option JsonMap) (st : String)

/-- The store after one operation of the public contract.  Read endpoints
leave the store untouched; mutating endpoints thread it through the
definitions above. -/
def applyOp (s : Settings) (ctx : Ctx) (op : Operation) (db : Database) : Database :=
  match op with
  | .listLogs _ _ => db
  | .getLog _ _ => db
  | .stats _ => db
  | .myHistory _ _ => db
  | .registerOp data req => (register s ctx data req db).2
  | .loginOp creds req => (login s ctx creds req db).2
  | .logoutOp cu req => (logout ctx cu req db).2
  | .listUsers _ _ => db
  | .getUser _ _ => db
  | .deactivateOp uid cu => (deactivate_user uid cu db).2
  | .activateOp uid cu => (activate_user uid cu db).2
  | .appendAudit cu et a req rt rid ch md st =>
    match create_audit_log ctx db cu et a req rt rid ch md st with
    | .ok (_, d) => d
    | .error _ => db

/-- A whole history: each request carries its own ambient context. -/
def applyOps (s : Settings) (ops : List (Ctx × Operation)) (db : Database) : Database :=
  ops.foldl (fun d p => applyOp s p.1 p.2 d) db

/-- Decidable equality of endpoint results, so that closed evaluations can be
settled by `decide`. -/
instance {ε α : Type} [DecidableEq ε] [DecidableEq α] : DecidableEq (Except ε α) := fun x y =>
  match x, y with
  | .ok a, .ok b => decidable_of_iff (a = b) (by simp)
  | .error a, .error b => decidable_of_iff (a = b) (by simp)
  | .ok _, .error _ => isFalse (by simp)
  | .error _, .ok _ => isFalse (by simp)

/-! ### Concrete sample data, used to evaluate the definitions on closed
inputs. -/

/-- A sample configuration. -/
def s0 : Settings := ⟨"test-secret", "HS256", 1440⟩

/-- A sample request origin. -/
def reqInfo0 : RequestInfo := ⟨none, "127.0.0.1", some "pytest"⟩

/-- The empty store. -/
def dbEmpty : Database := ⟨[], []⟩

/-- A request context whose audit insert commits. -/
def ctxOk : Ctx := ⟨1000, 1, true⟩

/-- A request context whose audit insert hits a transient storage failure. -/
def ctxFail : Ctx := ⟨1000, 1, false⟩

/-- Sample regular user. -/
def alice : User := ⟨1, "alice@example.com", hash_password "pw1", "Alice", .USER, true, 0, none⟩

/-- Second sample regular user. -/
def bob : User := ⟨2, "bob@example.com", hash_password "pw2", "Bob", .USER, true, 0, none⟩

/-- A deactivated user. -/
def carol : User := ⟨3, "carol@example.com", hash_password "pw3", "Carol", .USER, false, 0, none⟩

/-- Sample admin. -/
def adminUser : User :=
  ⟨10, "admin@example.com", hash_password "pw-adm", "Admin", .ADMIN, true, 0, none⟩

/-- A second admin, target of the deactivation attempt. -/
def adminTarget : User :=
  ⟨11, "root@example.com", hash_password "pw-root", "Root", .ADMIN, true, 0, none⟩

/-- Audit row of alice at timestamp 5. -/
def logA : AuditLog :=
  ⟨1, 5, 1, "alice@example.com", none, none, .USER_LOGIN, none, none,
    "Successful login", none, none, "success"⟩

/-- Audit row of alice at timestamp 3. -/
def logB : AuditLog :=
  ⟨2, 3, 1, "alice@example.com", none, none, .USER_LOGOUT, none, none,
    "User logged out", none, none, "success"⟩

/-- Audit row of bob at timestamp 4. -/
def logC : AuditLog :=
  ⟨3, 4, 2, "bob@example.com", none, none, .USER_LOGIN, none, none,
    "Successful login", none, none, "success"⟩

/-- A populated store. -/
def dbSample : Database := ⟨[alice, bob, carol, adminUser, adminTarget], [logA, logB, logC]⟩

/-- Default query: page 1, page size 50, no filters. -/
def q0 : LogsQuery := ⟨1, 50, none, none, none, none⟩

/-- What a non-admin alice gets from `GET /logs` on `dbSample`. -/
def respAlice : AuditLogListResponse := ⟨[logA, logB], 2, 1, 50⟩

/-- What an admin gets from `GET /logs` on `dbSample`. -/
def respAdmin : AuditLogListResponse := ⟨[logA, logC, logB], 3, 1, 50⟩

/-- A correctly-signed token for subject `"1"` expiring at 86400. -/
def tGood : SignedToken :=
  ⟨"HS256", [("sub", "1")], 86400, mkSignature "test-secret" "HS256" [("sub", "1")] 86400⟩

/-- The same token with a tampered signature. -/
def tBad : SignedToken :=
  ⟨"HS256", [("sub", "1")], 86400, mkSignature "test-secret" "HS256" [("sub", "1")] 86400 + 1⟩

/-- A correctly-signed token for the deactivated user carol. -/
def tCarol : SignedToken :=
  ⟨"HS256", [("sub", "3")], 86400, mkSignature "test-secret" "HS256" [("sub", "3")] 86400⟩

/-- Registration payload for a fresh email. -/
def data0 : UserCreate := ⟨"new@example.com", "pw-new", "New User"⟩

/-- The user row `register` commits for `data0` under `ctxFail`. -/
def regUser0 : User :=
  ⟨1, "new@example.com", hash_password "pw-new", "New User", .USER, true, 1000, none⟩

/-! ### Lemmas about the query pipeline -/

theorem mem_insertDesc {a x : AuditLog} {l : List AuditLog} :
    a ∈ insertDesc x l ↔ a = x ∨ a ∈ l := by
  induction l with
  | nil => simp [insertDesc]
  | cons y ys ih =>
    simp only [insertDesc]
    split
    · simp
    · simp only [List.mem_cons, ih]
      tauto

theorem mem_sortByTimestampDesc {a : AuditLog} {l : List AuditLog} :
    a ∈ sortByTimestampDesc l ↔ a ∈ l := by
  unfold sortByTimestampDesc
  induction l with
  | nil => simp
  | cons y ys ih =>
    simp only [List.foldr_cons, mem_insertDesc, ih, List.mem_cons]

theorem pairwise_insertDesc {x : AuditLog} {l : List AuditLog}
    (h : l.Pairwise (fun a b => b.timestamp ≤ a.timestamp)) :
    (insertDesc x l).Pairwise (fun a b => b.timestamp ≤ a.timestamp) := by
  induction l with
  | nil => simp [insertDesc]
  | cons y ys ih =>
    rcases List.pairwise_cons.mp h with ⟨hy, hys⟩
    simp only [insertDesc]
    split
    · rename_i hle
      refine List.pairwise_cons.mpr ⟨?_, h⟩
      intro z hz
      rcases List.mem_cons.mp hz with rfl | hz'
      · exact hle
      · exact le_trans (hy z hz') hle
    · rename_i hgt
      push_neg at hgt
      refine List.pairwise_cons.mpr ⟨?_, ih hys⟩
      intro z hz
      rcases mem_insertDesc.mp hz with rfl | hz'
      · exact le_of_lt hgt
      · exact hy z hz'

theorem pairwise_sortByTimestampDesc (l : List AuditLog) :
    (sortByTimestampDesc l).Pairwise (fun a b => b.timestamp ≤ a.timestamp) := by
  unfold sortByTimestampDesc
  induction l with
  | nil => simp
  | cons y ys ih => exact pairwise_insertDesc ih

theorem paginate_logs_sublist (q : LogsQuery) (l : List AuditLog) :
    List.Sublist (paginate q l).logs (sortByTimestampDesc l) :=
  (List.take_sublist _ _).trans (List.drop_sublist _ _)

theorem pairwise_paginate (q : LogsQuery) (l : List AuditLog) :
    (paginate q l).logs.Pairwise (fun a b => b.timestamp ≤ a.timestamp) :=
  (pairwise_sortByTimestampDesc l).sublist (paginate_logs_sublist q l)

theorem mem_of_mem_paginate {r : AuditLog} {q : LogsQuery} {l : List AuditLog}
    (h : r ∈ (paginate q l).logs) : r ∈ l :=
  mem_sortByTimestampDesc.mp ((paginate_logs_sublist q l).subset h)

theorem mem_of_mem_applyCommonFilters {r : AuditLog} {q : LogsQuery} {l : List AuditLog}
    (h : r ∈ applyCommonFilters q l) : r ∈ l := by
  unfold applyCommonFilters at h
  rcases q with ⟨page, psize, uid, et, sd, ed⟩
  dsimp at h
  cases et <;> cases sd <;> cases ed <;>
    simp only [List.mem_filter] at h <;> tauto

/-- In a list pairwise-sorted by descending timestamp, a strictly more recent
record sits at a strictly earlier position. -/
theorem pairwise_desc_position {l : List AuditLog}
    (hp : l.Pairwise (fun a b => b.timestamp ≤ a.timestamp))
    {i j : Nat} {A B : AuditLog} (hA : l.get? i = some A) (hB : l.get? j = some B)
    (hts : B.timestamp < A.timestamp) : i < j := by
  rcases List.get?_eq_some.mp hA with ⟨hi, hAe⟩
  rcases List.get?_eq_some.mp hB with ⟨hj, hBe⟩
  by_contra hij
  push_neg at hij
  rcases Nat.lt_or_ge j i with hlt | hge
  · have hrel := (List.pairwise_iff_get.mp hp) ⟨j, hj⟩ ⟨i, hi⟩ hlt
    rw [hAe, hBe] at hrel
    exact absurd hrel (not_le.mpr hts)
  · have hji : j = i := le_antisymm hij hge
    subst hji
    rw [hAe] at hBe
    rw [hBe] at hts
    exact lt_irrefl _ hts

/-- Every successful `GET /logs` response is a paginated view of some
filtered row set. -/
theorem get_audit_logs_ok_shape {q : LogsQuery} {cu : User} {db : Database}
    {resp : AuditLogListResponse} (h : get_audit_logs q cu db = .ok resp) :
    ∃ l, resp = paginate q l := by
  unfold get_audit_logs at h
  split at h
  · split at h
    · split at h
      · simp at h
      · exact ⟨_, (Except.ok.inj h).symm⟩
    · exact ⟨_, (Except.ok.inj h).symm⟩
  · split at h
    · exact ⟨_, (Except.ok.inj h).symm⟩
    · exact ⟨_, (Except.ok.inj h).symm⟩

/-- **C7** (ordering invariant): for any two stored audit records `A` and `B`
with `A.timestamp > B.timestamp`, every `GET /logs` result and every
`GET /my-history` result that includes both returns `A` strictly before `B`:
both endpoints order by timestamp descending (most recent first). -/
theorem ordering_invariant (q : LogsQuery) (cu : User) (db : Database) :
    (∀ resp i j A B, get_audit_logs q cu db = Except.ok resp →
        resp.logs.get? i = some A → resp.logs.get? j = some B →
        B.timestamp < A.timestamp → i < j) ∧
    (∀ i j A B, (get_my_history q cu db).logs.get? i = some A →
        (get_my_history q cu db).logs.get? j = some B →
        B.timestamp < A.timestamp → i < j) := by
  constructor
  · intro resp i j A B hok hA hB hts
    obtain ⟨l, rfl⟩ := get_audit_logs_ok_shape hok
    exact pairwise_desc_position (pairwise_paginate q l) hA hB hts
  · intro i j A B hA hB hts
    unfold get_my_history at hA hB
    exact pairwise_desc_position (pairwise_paginate q _) hA hB hts

/-- Witness for C7: on the sample store, the admin listing returns the
timestamp-5 record at position 0, strictly before the timestamp-4 record at
position 1. -/
theorem ordering_invariant_witness :
    (get_audit_logs q0 adminUser dbSample = Except.ok respAdmin ∧
      respAdmin.logs.get? 0 = some logA ∧ respAdmin.logs.get? 1 = some logC ∧
      logC.timestamp < logA.timestamp) ∧ (0 : Nat) < 1 :=
  ⟨⟨by decide, by decide, by decide, by decide⟩,
    (ordering_invariant q0 adminUser dbSample).1 respAdmin 0 1 logA logC
      (by decide) (by decide) (by decide) (by decide)⟩

/-- **C10** (refinement): for every authenticated requester and every
combination of filters and pagination, `GET /my-history` returns exactly the
same `(records, total)` result as `GET /logs` with the `user_id` filter fixed
to the requester's own id — the two query paths are equivalent. -/
theorem my_history_equals_scoped_logs (q : LogsQuery) (cu : User) (db : Database) :
    get_audit_logs { q with user_id := some cu.id } cu db =
      Except.ok (get_my_history q cu db) := by
  unfold get_audit_logs get_my_history
  by_cases hrole : cu.role = UserRole.ADMIN
  · rw [if_neg (by simp [hrole])]
    dsimp only
    rfl
  · rw [if_pos hrole]
    dsimp only
    rw [if_neg (by simp)]
    rfl

/-- **C2** (scope invariant): for every non-admin requester, every record a
successful `GET /logs` returns and every record a successful
`GET /logs/{id}` returns carries the requester's own actor id, and a
`GET /logs` request filtering by a different actor id is answered with 403
Forbidden. -/
theorem scope_invariant (q : LogsQuery) (cu : User) (db : Database)
    (hrole : cu.role ≠ UserRole.ADMIN) :
    (∀ resp, get_audit_logs q cu db = Except.ok resp →
        ∀ r ∈ resp.logs, r.user_id = cu.id) ∧
    (∀ uid, q.user_id = some uid → uid ≠ cu.id →
        get_audit_logs q cu db =
          Except.error ⟨403, "You can only view your own audit logs"⟩) ∧
    (∀ log_id r, get_audit_log log_id cu db = Except.ok r → r.user_id = cu.id) := by
  refine ⟨?_, ?_, ?_⟩
  · intro resp hok r hr
    unfold get_audit_logs at hok
    rw [if_pos hrole] at hok
    have hmem : r ∈ db.audit_logs.filter (fun r => decide (r.user_id = cu.id)) := by
      rcases hu : q.user_id with _ | uid
      · rw [hu] at hok
        dsimp only at hok
        obtain rfl := Except.ok.inj hok
        exact mem_of_mem_applyCommonFilters (mem_of_mem_paginate hr)
      · rw [hu] at hok
        dsimp only at hok
        split at hok
        · simp at hok
        · obtain rfl := Except.ok.inj hok
          exact mem_of_mem_applyCommonFilters (mem_of_mem_paginate hr)
    exact of_decide_eq_true (List.mem_filter.mp hmem).2
  · intro uid hu hne
    unfold get_audit_logs
    rw [if_pos hrole, hu]
    dsimp only
    rw [if_pos hne]
  · intro log_id r hok
    unfold get_audit_log at hok
    split at hok
    · simp at hok
    · rename_i log hfind
      split at hok
      · simp at hok
      · rename_i hcond
        push_neg at hcond
        obtain rfl := Except.ok.inj hok
        exact hcond hrole

/-- Witness for C2: non-admin alice only ever sees her own rows and is
refused when asking for bob's. -/
theorem scope_invariant_witness :
    logA.user_id = alice.id ∧
    (get_audit_logs ⟨1, 50, some 2, none, none, none⟩ alice dbSample =
      Except.error ⟨403, "You can only view your own audit logs"⟩) ∧
    logB.user_id = alice.id :=
  ⟨(scope_invariant q0 alice dbSample (by decide)).1 respAlice (by decide) logA (by decide),
    (scope_invariant ⟨1, 50, some 2, none, none, none⟩ alice dbSample (by decide)).2.1 2
      rfl (by decide),
    (scope_invariant q0 alice dbSample (by decide)).2.2 2 logB (by decide)⟩
/-- A successful audit insert appends exactly one row at the tail and leaves
the users table alone. -/
theorem create_audit_log_ok {ctx : Ctx} {db : Database} {u : User}
    {et : AuditEventType} {a : String} {req : Option RequestInfo}
    {rt : Option String} {rid : Option Nat} {ch md : Option JsonMap} {st : String}
    {log : AuditLog} {db' : Database}
    (h : create_audit_log ctx db u et a req rt rid ch md st = .ok (log, db')) :
    db'.audit_logs = db.audit_logs ++ [log] ∧ db'.users = db.users := by
  unfold create_audit_log at h
  split at h
  · obtain ⟨h1, h2⟩ := Prod.mk.injEq .. ▸ Except.ok.inj h
    subst h1
    subst h2
    exact ⟨rfl, rfl⟩
  · simp at h

/-- One public operation never removes or edits stored audit rows: the ledger
after the operation is the ledger before, extended at the tail. -/
theorem applyOp_audit_logs (s : Settings) (ctx : Ctx) (op : Operation) (db : Database) :
    ∃ tail, (applyOp s ctx op db).audit_logs = db.audit_logs ++ tail := by
  cases op with
  | listLogs q cu => exact ⟨[], by simp [applyOp]⟩
  | getLog lid cu => exact ⟨[], by simp [applyOp]⟩
  | stats t => exact ⟨[], by simp [applyOp]⟩
  | myHistory q cu => exact ⟨[], by simp [applyOp]⟩
  | listUsers q cu => exact ⟨[], by simp [applyOp]⟩
  | getUser uid cu => exact ⟨[], by simp [applyOp]⟩
  | registerOp data req =>
    simp only [applyOp, register]
    split
    · exact ⟨[], by simp⟩
    · split
      · rename_i lg d2 heq
        obtain ⟨h1, _⟩ := create_audit_log_ok heq
        exact ⟨[lg], by rw [h1]⟩
      · exact ⟨[], by simp⟩
  | loginOp creds req =>
    simp only [applyOp, login]
    split
    · exact ⟨[], by simp⟩
    · rename_i user hfind
      split
      · dsimp only
        split
        · rename_i lg d2 heq
          obtain ⟨h1, _⟩ := create_audit_log_ok heq
          exact ⟨[lg], by rw [h1]⟩
        · exact ⟨[], by simp⟩
      · split
        · exact ⟨[], by simp⟩
        · dsimp only
          split
          · rename_i lg d2 heq
            obtain ⟨h1, _⟩ := create_audit_log_ok heq
            exact ⟨[lg], by rw [h1]⟩
          · exact ⟨[], by simp⟩
  | logoutOp cu req =>
    simp only [applyOp, logout]
    split
    · rename_i lg d2 heq
      obtain ⟨h1, _⟩ := create_audit_log_ok heq
      exact ⟨[lg], by rw [h1]⟩
    · exact ⟨[], by simp⟩
  | deactivateOp uid cu =>
    simp only [applyOp, deactivate_user]
    split
    · exact ⟨[], by simp⟩
    · split
      · exact ⟨[], by simp⟩
      · split
        · exact ⟨[], by simp⟩
        · exact ⟨[], by simp⟩
  | activateOp uid cu =>
    simp only [applyOp, activate_user]
    split
    · exact ⟨[], by simp⟩
    · split
      · exact ⟨[], by simp⟩
      · exact ⟨[], by simp⟩
  | appendAudit cu et a req rt rid ch md st =>
    simp only [applyOp]
    split
    · rename_i lg d2 heq
      obtain ⟨h1, _⟩ := create_audit_log_ok heq
      exact ⟨[lg], by rw [h1]⟩
    · exact ⟨[], by simp⟩

/-- Extends `applyOp_audit_logs` over a whole history of requests. -/
theorem applyOps_audit_logs (s : Settings) (ops : List (Ctx × Operation)) (db : Database) :
    ∃ tail, (applyOps s ops db).audit_logs = db.audit_logs ++ tail := by
  induction ops generalizing db with
  | nil => exact ⟨[], by simp [applyOps]⟩
  | cons p ps ih =>
    obtain ⟨t1, h1⟩ := applyOp_audit_logs s p.1 p.2 db
    obtain ⟨t2, h2⟩ := ih (applyOp s p.1 p.2 db)
    refine ⟨t1 ++ t2, ?_⟩
    show (applyOps s ps (applyOp s p.1 p.2 db)).audit_logs = _
    rw [h2, h1, List.append_assoc]

/-- **C1** (append-only law): after a record is in the ledger, no sequence of
operations of the public contract (list, get, stats, my-history, register,
login, logout, user management, or any audit append) can alter or remove it:
the ledger after any history is the old ledger followed by new insertions
only, and every previously stored record is still present unchanged. -/
theorem append_only_law (s : Settings) (ops : List (Ctx × Operation)) (db : Database) :
    (∃ tail, (applyOps s ops db).audit_logs = db.audit_logs ++ tail) ∧
    ∀ r ∈ db.audit_logs, r ∈ (applyOps s ops db).audit_logs := by
  obtain ⟨t, ht⟩ := applyOps_audit_logs s ops db
  refine ⟨⟨t, ht⟩, fun r hr => ?_⟩
  rw [ht]
  exact List.mem_append_left _ hr

/-- Witness for C1: after a logout (which appends a row) and a deactivation,
alice's old timestamp-5 record is still in the ledger. -/
theorem append_only_law_witness :
    logA ∈ (applyOps s0 [(ctxOk, .logoutOp alice reqInfo0),
      (ctxOk, .deactivateOp 2 adminUser)] dbSample).audit_logs :=
  (append_only_law s0 [(ctxOk, .logoutOp alice reqInfo0),
    (ctxOk, .deactivateOp 2 adminUser)] dbSample).2 logA (by decide)
/-- Counterexample to C3 as stated: with the only fault being the audit-row
insert, registration reports a 500 failure — the audit failure is not
swallowed for registration — even though the user row was already
committed. -/
theorem auth_audit_swallow_counterexample :
    (register s0 ctxFail data0 reqInfo0 dbEmpty).1 =
      Except.error ⟨500, "Registration failed. Please try again later."⟩ ∧
    (register s0 ctxFail data0 reqInfo0 dbEmpty).2.users = [regUser0] :=
  ⟨by decide, by decide⟩

/-- **C3** (amended): for login and logout an audit-write failure is
swallowed and the endpoint's outcome is unchanged, but for registration an
audit-write failure surfaces as a 500 to the caller even though the new user
row stays committed. -/
theorem auth_audit_swallow_amended (s : Settings) (ctx : Ctx) (creds : UserLogin)
    (cu : User) (req : RequestInfo) (db : Database) (data : UserCreate) :
    (login s { ctx with audit_write_ok := false } creds req db).1 =
      (login s { ctx with audit_write_ok := true } creds req db).1 ∧
    (logout { ctx with audit_write_ok := false } cu req db).1 =
      Except.ok "Successfully logged out" ∧
    (db.users.find? (fun u => u.email == data.email) = none →
      ctx.audit_write_ok = false →
      (register s ctx data req db).1 =
        Except.error ⟨500, "Registration failed. Please try again later."⟩ ∧
      ∃ nu, (register s ctx data req db).2.users = db.users ++ [nu]) := by
  refine ⟨?_, rfl, ?_⟩
  · unfold login
    cases hfind : db.users.find? (fun u => u.email == creds.email) with
    | none => rfl
    | some user =>
      by_cases hpw : verify_password creds.password user.password_hash
      · by_cases hact : user.is_active
        · simp [hpw, hact]
        · simp [hpw, hact]
      · simp [hpw]
  · intro hfind hctx
    constructor
    · simp [register, hfind, log_user_register, create_audit_log, hctx]
    · refine ⟨⟨ctx.fresh_id, data.email, hash_password data.password, data.full_name,
        .USER, true, ctx.now, none⟩, ?_⟩
      simp [register, hfind, log_user_register, create_audit_log, hctx]

/-- Witness for the C3 amendment: alice's login outcome is the same whether
the audit insert commits or not, and a registration under an audit fault
yields the 500. -/
theorem auth_audit_swallow_amended_witness :
    ((login s0 { ctxFail with audit_write_ok := false } ⟨"alice@example.com", "pw1"⟩
        reqInfo0 dbSample).1 =
      (login s0 { ctxFail with audit_write_ok := true } ⟨"alice@example.com", "pw1"⟩
        reqInfo0 dbSample).1) ∧
    ((register s0 ctxFail data0 reqInfo0 dbSample).1 =
      Except.error ⟨500, "Registration failed. Please try again later."⟩) :=
  ⟨(auth_audit_swallow_amended s0 ctxFail ⟨"alice@example.com", "pw1"⟩ alice reqInfo0
      dbSample data0).1,
    ((auth_audit_swallow_amended s0 ctxFail ⟨"alice@example.com", "pw1"⟩ alice reqInfo0
      dbSample data0).2.2 (by decide) rfl).1⟩

/-- Counterexample to C4 as stated: an admin requester's deactivation attempt
against an ADMIN-role target is answered with 400 Bad Request, not 403
Forbidden (the store, including the target's active flag, is unchanged). -/
theorem admin_lockout_counterexample :
    (deactivate_user 11 adminUser dbSample).1 =
      Except.error ⟨400, "Cannot deactivate admin users"⟩ ∧
    (deactivate_user 11 adminUser dbSample).2 = dbSample :=
  ⟨by decide, by decide⟩

/-- **C4** (amended): a non-admin requester is refused with 403 by the admin
dependency before the handler runs; an admin requester deactivating an
ADMIN-role identity is refused with 400 Bad Request; in both cases the store
— in particular the target's active flag — is left unchanged. -/
theorem admin_lockout_amended (uid : Nat) (cu target : User) (db : Database) :
    (cu.role ≠ UserRole.ADMIN →
      deactivate_user uid cu db = (Except.error ⟨403, "Admin access required"⟩, db)) ∧
    (cu.role = UserRole.ADMIN →
      db.users.find? (fun u => u.id == uid) = some target →
      target.role = UserRole.ADMIN →
      deactivate_user uid cu db =
        (Except.error ⟨400, "Cannot deactivate admin users"⟩, db)) := by
  constructor
  · intro h
    unfold deactivate_user
    rw [if_pos h]
  · intro h hf ht
    unfold deactivate_user
    rw [if_neg (by simp [h]), hf]
    dsimp only
    rw [if_pos ht]

/-- Witness for the C4 amendment on the sample store. -/
theorem admin_lockout_amended_witness :
    (deactivate_user 11 alice dbSample =
      (Except.error ⟨403, "Admin access required"⟩, dbSample)) ∧
    (deactivate_user 11 adminUser dbSample =
      (Except.error ⟨400, "Cannot deactivate admin users"⟩, dbSample)) :=
  ⟨(admin_lockout_amended 11 alice adminTarget dbSample).1 (by decide),
    (admin_lockout_amended 11 adminUser adminTarget dbSample).2 (by decide) (by decide)
      (by decide)⟩

/-- Counterexample to C5 as stated: a request with a missing credential is
answered with 403 "Not authenticated" by the bearer scheme, not with the
claimed 401 Unauthenticated. -/
theorem identity_resolution_counterexample :
    get_current_user s0 0 none dbSample = Except.error ⟨403, "Not authenticated"⟩ := by
  decide

/-- **C5** (amended): a missing credential is refused with 403 "Not
authenticated" by the `HTTPBearer` scheme (`auto_error=True`); a present
bearer credential whose token is malformed, badly signed or expired yields
401, as does a token whose subject matches no identity; a valid token of a
known but inactive identity yields 403; a valid token of an active identity
resolves to it. -/
theorem identity_resolution_amended (s : Settings) (now : Int) (db : Database) :
    (get_current_user s now none db = Except.error ⟨403, "Not authenticated"⟩) ∧
    (∀ h : AuthHeader, lowerString h.scheme = "bearer" →
      decode_token s now h.credentials = none →
      get_current_user s now (some h) db =
        Except.error ⟨401, "Invalid authentication credentials"⟩) ∧
    (∀ (h : AuthHeader) (sub : String), lowerString h.scheme = "bearer" →
      decode_token s now h.credentials = some sub →
      db.users.find? (fun u => toString u.id == sub) = none →
      get_current_user s now (some h) db = Except.error ⟨401, "User not found"⟩) ∧
    (∀ (h : AuthHeader) (sub : String) (user : User), lowerString h.scheme = "bearer" →
      decode_token s now h.credentials = some sub →
      db.users.find? (fun u => toString u.id == sub) = some user →
      (user.is_active = false →
        get_current_user s now (some h) db =
          Except.error ⟨403, "User account is inactive"⟩) ∧
      (user.is_active = true → get_current_user s now (some h) db = Except.ok user)) := by
  refine ⟨rfl, ?_, ?_, ?_⟩
  · intro h hs hdec
    simp only [get_current_user, http_bearer]
    rw [if_neg (by simp [hs])]
    dsimp only
    rw [hdec]
  · intro h sub hs hdec hfind
    simp only [get_current_user, http_bearer]
    rw [if_neg (by simp [hs])]
    dsimp only
    rw [hdec]
    dsimp only
    rw [hfind]
  · intro h sub user hs hdec hfind
    constructor
    · intro hin
      simp only [get_current_user, http_bearer]
      rw [if_neg (by simp [hs])]
      dsimp only
      rw [hdec]
      dsimp only
      rw [hfind]
      dsimp only
      rw [if_pos (by simp [hin])]
    · intro hact
      simp only [get_current_user, http_bearer]
      rw [if_neg (by simp [hs])]
      dsimp only
      rw [hdec]
      dsimp only
      rw [hfind]
      dsimp only
      rw [if_neg (by simp [hact])]

/-- Witness for the C5 amendment: a malformed bearer token yields 401, a
valid token of the deactivated carol yields 403, a valid token of the active
alice resolves to her. -/
theorem identity_resolution_amended_witness :
    (get_current_user s0 0 (some ⟨"Bearer", .malformed "zzz"⟩) dbSample =
      Except.error ⟨401, "Invalid authentication credentials"⟩) ∧
    (get_current_user s0 0 (some ⟨"Bearer", .signed tCarol⟩) dbSample =
      Except.error ⟨403, "User account is inactive"⟩) ∧
    (get_current_user s0 0 (some ⟨"Bearer", .signed tGood⟩) dbSample = Except.ok alice) :=
  ⟨(identity_resolution_amended s0 0 dbSample).2.1 ⟨"Bearer", .malformed "zzz"⟩
      (by decide) (by decide),
    ((identity_resolution_amended s0 0 dbSample).2.2.2 ⟨"Bearer", .signed tCarol⟩ "3" carol
      (by decide) (by decide) (by decide)).1 (by decide),
    ((identity_resolution_amended s0 0 dbSample).2.2.2 ⟨"Bearer", .signed tGood⟩ "1" alice
      (by decide) (by decide) (by decide)).2 (by decide)⟩

/-- **C6**: a malformed token, a token with a tampered signature and an
expired token all collapse to the single outcome `none` — the verifier is a
total function, so no exception escapes and callers cannot tell the causes
apart — while a correctly-signed token not expired at the call time yields
its payload, and the extracted subject claim is identical on every call. -/
theorem token_verification (s : Settings) :
    (∀ (raw : String) (now : Int), verify_token s now (.malformed raw) = none) ∧
    (∀ (t : SignedToken) (now : Int),
      t.sig ≠ mkSignature s.SECRET_KEY t.alg t.claims t.exp →
      verify_token s now (.signed t) = none) ∧
    (∀ (t : SignedToken) (now : Int), t.exp ≤ now →
      verify_token s now (.signed t) = none) ∧
    (∀ (t : SignedToken) (now1 now2 : Int), t.alg = s.ALGORITHM →
      t.sig = mkSignature s.SECRET_KEY t.alg t.claims t.exp →
      now1 < t.exp → now2 < t.exp →
      verify_token s now1 (.signed t) = some t.claims ∧
      decode_token s now1 (.signed t) = t.claims.lookup "sub" ∧
      decode_token s now1 (.signed t) = decode_token s now2 (.signed t)) := by
  refine ⟨fun raw now => rfl, ?_, ?_, ?_⟩
  · intro t now hsig
    unfold verify_token
    dsimp only
    by_cases halg : t.alg = s.ALGORITHM
    · rw [if_neg (by simp [halg]), if_pos hsig]
    · rw [if_pos halg]
  · intro t now hexp
    unfold verify_token
    dsimp only
    by_cases halg : t.alg = s.ALGORITHM
    · rw [if_neg (by simp [halg])]
      by_cases hsig : t.sig = mkSignature s.SECRET_KEY t.alg t.claims t.exp
      · rw [if_neg (by simp [hsig]), if_pos hexp]
      · rw [if_pos hsig]
    · rw [if_pos halg]
  · intro t now1 now2 halg hsig h1 h2
    have hv : ∀ now, now < t.exp → verify_token s now (.signed t) = some t.claims := by
      intro now hn
      unfold verify_token
      dsimp only
      rw [if_neg (by simp [halg]), if_neg (by simp [hsig]), if_neg (not_le.mpr hn)]
    refine ⟨hv now1 h1, ?_, ?_⟩
    · unfold decode_token
      rw [hv now1 h1]
    · unfold decode_token
      rw [hv now1 h1, hv now2 h2]

/-- Witness for C6 on concrete tokens: tampered signature and expiry give
`none`, the good token gives its payload, and the decoded subject agrees
across two call times. -/
theorem token_verification_witness :
    (verify_token s0 0 (.signed tBad) = none) ∧
    (verify_token s0 86400 (.signed tGood) = none) ∧
    (verify_token s0 0 (.signed tGood) = some [("sub", "1")]) ∧
    (decode_token s0 0 (.signed tGood) = decode_token s0 100 (.signed tGood)) :=
  ⟨(token_verification s0).2.1 tBad 0 (by decide),
    (token_verification s0).2.2.1 tGood 86400 (by decide),
    ((token_verification s0).2.2.2 tGood 0 100 (by decide) (by decide) (by decide)
      (by decide)).1,
    ((token_verification s0).2.2.2 tGood 0 100 (by decide) (by decide) (by decide)
      (by decide)).2.2⟩

/-- **C8** (code bug): an event recorded with a metadata map is stored as a
row whose metadata column (`event_metadata`) is NULL — the `metadata=`
keyword argument lands on the ORM base's reserved non-column attribute, so
the map is silently dropped — even though the insert itself succeeds and a
later read can only return that NULL. -/
theorem metadata_map_dropped :
    (create_audit_log ctxOk dbEmpty alice .TASK_CREATE "Created task" none (some "task")
      (some 7) none (some [("task_title", "t")]) "success").toOption.map
        (fun p => p.1.event_metadata) = some none ∧
    (create_audit_log ctxOk dbEmpty alice .TASK_CREATE "Created task" none (some "task")
      (some 7) none (some [("task_title", "t")]) "success").toOption.map
        (fun p => p.2.audit_logs.length) = some 1 :=
  ⟨by decide, by decide⟩

/-- **C9** (code bug): `get_optional_user` is documented as never raising and
returning `None` for anonymous access, but a request with no Authorization
credential is rejected with 403 "Not authenticated" by the `HTTPBearer`
scheme it depends on (left at `auto_error=True`) before the function body
runs; with a credential present, an invalid token degrades to anonymous and a
valid token of an active identity resolves to it. -/
theorem optional_resolution_raises :
    get_optional_user s0 0 none dbSample = Except.error ⟨403, "Not authenticated"⟩ ∧
    get_optional_user s0 0 (some ⟨"Bearer", .malformed "zzz"⟩) dbSample = Except.ok none ∧
    get_optional_user s0 0 (some ⟨"Bearer", .signed tGood⟩) dbSample =
      Except.ok (some alice) :=
  ⟨by decide, by decide, by decide⟩

end AuditTrail
